import Mathlib

/-!
Verification development for the SignalK-Orientation pipeline
(`orientation_sensor.h/.cpp`, `signalk_orientation.h`, `signalk_output.h`).

The external SensorFusion engine (the Parameter Store) is modelled as an
opaque query surface: a structure holding the value each `Get*()` query
currently returns, plus a trace of command tokens passed to
`InjectCommand`.  Machine floats are embedded as exact rationals; the
claims under study are about data flow (which query feeds which field,
scaling by 100, command draining, null-vs-numeric serialization), not
about rounding.
-/

namespace SignalKOrientation

/-- The query surface of the external `SensorFusion` engine (the Parameter
Store): one field per `Get*()` query used by this repository, plus the
data-validity query `IsDataValid`.  Each field holds the value the query
currently returns. -/
structure SensorFusion where
  IsDataValid : Bool
  GetHeadingRadians : ℚ
  GetRollRadians : ℚ
  GetPitchRadians : ℚ
  GetAccelXMPerSS : ℚ
  GetAccelYMPerSS : ℚ
  GetAccelZMPerSS : ℚ
  GetTurnRateRadPerS : ℚ
  GetPitchRateRadPerS : ℚ
  GetRollRateRadPerS : ℚ
  GetTemperatureK : ℚ
  GetMagneticFitError : ℚ
  GetMagneticFitErrorTrial : ℚ
  GetMagneticCalSolver : ℤ
  GetMagneticInclinationRad : ℚ
  GetMagneticBMag : ℚ
  GetMagneticBMagTrial : ℚ
  GetMagneticNoiseCovariance : ℚ
deriving DecidableEq, Repr

/-- `struct Attitude` from `signalk_orientation.h`: validity flag plus
yaw, pitch, roll in radians. -/
structure Attitude where
  is_data_valid : Bool
  yaw : ℚ
  pitch : ℚ
  roll : ℚ
deriving DecidableEq, Repr

/-- `struct MagCal` from `signalk_orientation.h`: validity flag plus the
seven magnetic-calibration parameters (field order as declared there). -/
structure MagCal where
  is_data_valid : Bool
  magnetic_inclination : ℚ
  cal_fit_error : ℚ
  cal_fit_error_trial : ℚ
  mag_field_magnitude : ℚ
  mag_field_magnitude_trial : ℚ
  mag_noise_covariance : ℚ
  mag_solver : ℤ
deriving DecidableEq, Repr

/-- `OrientationValues::OrientationValType` from `orientation_sensor.h`:
the closed enumeration of scalar parameter ids, in declaration order. -/
inductive OrientationValType where
  | kCompassHeading
  | kYaw
  | kPitch
  | kRoll
  | kAttitude
  | kAccelerationX
  | kAccelerationY
  | kAccelerationZ
  | kRateOfTurn
  | kRateOfPitch
  | kRateOfRoll
  | kTemperature
  | kMagCalFitInUse
  | kMagCalFitTrial
  | kMagCalAlgorithmSolver
  | kMagInclination
  | kMagFieldMagnitude
  | kMagFieldMagnitudeTrial
  | kMagNoiseCovariance
deriving DecidableEq, Repr

/-- The mutable per-instance state of an `OrientationValues` scalar reader:
the fixed parameter id `value_type_`, the calibration-command flag
`save_mag_cal_` (an `int8_t` in the source, embedded as ℤ since it is only
compared with 1 and -1 and overwritten with 0), and the debug print
throttling counter `throttlePrint_`. -/
structure OrientationValuesState where
  value_type_ : OrientationValType
  save_mag_cal_ : ℤ
  throttlePrint_ : ℤ
deriving DecidableEq, Repr

/-- `OrientationValues::ReportValue` from `orientation_sensor.cpp`
(lines 384-458), as a state-passing function.  Returns the float `output`
of the source, the updated reader state, and the list of command tokens
passed to `sensor_interface_->InjectCommand` during this call (in order).
The source drains `save_mag_cal_` first (if 1 inject "SVMC", else if -1
inject "ERMC", then set it to 0 unconditionally), initializes `output` to
0.0, and switches on `value_type_`; `kYaw` and `kAttitude` have no case
and fall to `default`, leaving `output` at 0.0.  The `kCompassHeading`
case also increments `throttlePrint_` for debug-print throttling. -/
def OrientationValues.ReportValue (sf : SensorFusion)
    (s : OrientationValuesState) :
    ℚ × OrientationValuesState × List String :=
  let injected : List String :=
    if s.save_mag_cal_ = 1 then ["SVMC"]
    else if s.save_mag_cal_ = -1 then ["ERMC"]
    else []
  let throttle : ℤ :=
    if s.value_type_ = .kCompassHeading then s.throttlePrint_ + 1
    else s.throttlePrint_
  let output : ℚ :=
    match s.value_type_ with
    | .kCompassHeading => sf.GetHeadingRadians
    | .kRoll => sf.GetRollRadians
    | .kPitch => sf.GetPitchRadians
    | .kAccelerationX => sf.GetAccelXMPerSS
    | .kAccelerationY => sf.GetAccelYMPerSS
    | .kAccelerationZ => sf.GetAccelZMPerSS
    | .kRateOfTurn => sf.GetTurnRateRadPerS
    | .kRateOfPitch => sf.GetPitchRateRadPerS
    | .kRateOfRoll => sf.GetRollRateRadPerS
    | .kTemperature => sf.GetTemperatureK
    | .kMagCalFitInUse => sf.GetMagneticFitError
    | .kMagCalFitTrial => sf.GetMagneticFitErrorTrial
    | .kMagCalAlgorithmSolver => (sf.GetMagneticCalSolver : ℚ)
    | .kMagInclination => sf.GetMagneticInclinationRad
    | .kMagFieldMagnitude => sf.GetMagneticBMag
    | .kMagFieldMagnitudeTrial => sf.GetMagneticBMagTrial
    | .kMagNoiseCovariance => sf.GetMagneticNoiseCovariance
    | _ => 0
  (output,
   { s with save_mag_cal_ := 0, throttlePrint_ := throttle },
   injected)

/-- The parameter ids that appear as `case` labels in the `switch` of
`OrientationValues::ReportValue`.  `kYaw` and `kAttitude` are the only
enumerators with no case label; they reach `default`. -/
def dispatchMatched : OrientationValType → Bool
  | .kCompassHeading => true
  | .kYaw => false
  | .kPitch => true
  | .kRoll => true
  | .kAttitude => false
  | .kAccelerationX => true
  | .kAccelerationY => true
  | .kAccelerationZ => true
  | .kRateOfTurn => true
  | .kRateOfPitch => true
  | .kRateOfRoll => true
  | .kTemperature => true
  | .kMagCalFitInUse => true
  | .kMagCalFitTrial => true
  | .kMagCalAlgorithmSolver => true
  | .kMagInclination => true
  | .kMagFieldMagnitude => true
  | .kMagFieldMagnitudeTrial => true
  | .kMagNoiseCovariance => true

/-- The mutable per-instance state of an `AttitudeValues` composite reader:
the persistent member struct `attitude_` and the calibration-command flag
`save_mag_cal_` (`int8_t`, embedded as ℤ). -/
structure AttitudeValuesState where
  attitude_ : Attitude
  save_mag_cal_ : ℤ
deriving DecidableEq, Repr

/-- `AttitudeValues::Update` from `orientation_sensor.cpp` (lines 113-133),
as a state-passing function.  Returns the updated reader state and the
command tokens injected.  The source drains `save_mag_cal_` like
`ReportValue` does, then assigns `attitude_.is_data_valid`, `.yaw`,
`.roll`, `.pitch` (in that order) from the fusion queries, and emits
`attitude_`; the emitted record is the returned state's `attitude_`. -/
def AttitudeValues.Update (sf : SensorFusion) (s : AttitudeValuesState) :
    AttitudeValuesState × List String :=
  let injected : List String :=
    if s.save_mag_cal_ = 1 then ["SVMC"]
    else if s.save_mag_cal_ = -1 then ["ERMC"]
    else []
  let a1 := { s.attitude_ with is_data_valid := sf.IsDataValid }
  let a2 := { a1 with yaw := sf.GetHeadingRadians }
  let a3 := { a2 with roll := sf.GetRollRadians }
  let a4 := { a3 with pitch := sf.GetPitchRadians }
  ({ attitude_ := a4, save_mag_cal_ := 0 }, injected)

/-- `MagCalValues::Update` from `orientation_sensor.cpp` (lines 242-257),
as a state-passing function on the persistent member struct `mag_cal_`
(the class has no `save_mag_cal_` member and issues no `InjectCommand`).
Returns the updated `mag_cal_` (which is also the emitted record) and the
command tokens injected (none).  Assignments mirror the source's order:
validity, fit error / 100.0, trial fit error / 100.0, field magnitude,
trial field magnitude, noise covariance, solver, inclination. -/
def MagCalValues.Update (sf : SensorFusion) (mag_cal_ : MagCal) :
    MagCal × List String :=
  let m1 := { mag_cal_ with is_data_valid := sf.IsDataValid }
  let m2 := { m1 with cal_fit_error := sf.GetMagneticFitError / 100 }
  let m3 := { m2 with cal_fit_error_trial := sf.GetMagneticFitErrorTrial / 100 }
  let m4 := { m3 with mag_field_magnitude := sf.GetMagneticBMag }
  let m5 := { m4 with mag_field_magnitude_trial := sf.GetMagneticBMagTrial }
  let m6 := { m5 with mag_noise_covariance := sf.GetMagneticNoiseCovariance }
  let m7 := { m6 with mag_solver := sf.GetMagneticCalSolver }
  let m8 := { m7 with magnetic_inclination := sf.GetMagneticInclinationRad }
  (m8, [])

/-- A serialized JSON field value: either the explicit JSON null marker or
a numeric value.  `value["x"] = (char*)0` in the source produces the null
marker; a float or int assignment produces a number. -/
inductive JVal where
  | jnull : JVal
  | jnum : ℚ → JVal
deriving DecidableEq, Repr

/-- `SKOutput<Attitude>::as_signalk` from `signalk_output.h`
(lines 149-177), modelled as the ordered field map of the nested `value`
object together with the path.  If `output.is_data_valid`, the three
angles are written as numbers; otherwise each of the three keys is
assigned `(char*)0`, i.e. JSON null. -/
def SKOutputAttitude.as_signalk (sk_path : String) (output : Attitude) :
    String × List (String × JVal) :=
  (sk_path,
   if output.is_data_valid then
     [("yaw", JVal.jnum output.yaw),
      ("pitch", JVal.jnum output.pitch),
      ("roll", JVal.jnum output.roll)]
   else
     [("yaw", JVal.jnull),
      ("pitch", JVal.jnull),
      ("roll", JVal.jnull)])

/-- `SKOutput<MagCal>::as_signalk` from `signalk_output.h`
(lines 263-300), modelled as the ordered field map of the nested `value`
object together with the path.  If `output.is_data_valid`, all seven
fields are numbers; otherwise `incl`, `ferrt`, `bmagt` and `noise` are
assigned `(char*)0` (JSON null) while `ferr`, `bmag` and `solver` keep
their numeric values. -/
def SKOutputMagCal.as_signalk (sk_path : String) (output : MagCal) :
    String × List (String × JVal) :=
  (sk_path,
   if output.is_data_valid then
     [("incl", JVal.jnum output.magnetic_inclination),
      ("ferr", JVal.jnum output.cal_fit_error),
      ("ferrt", JVal.jnum output.cal_fit_error_trial),
      ("bmag", JVal.jnum output.mag_field_magnitude),
      ("bmagt", JVal.jnum output.mag_field_magnitude_trial),
      ("noise", JVal.jnum output.mag_noise_covariance),
      ("solver", JVal.jnum (output.mag_solver : ℚ))]
   else
     [("incl", JVal.jnull),
      ("ferr", JVal.jnum output.cal_fit_error),
      ("ferrt", JVal.jnull),
      ("bmag", JVal.jnum output.mag_field_magnitude),
      ("bmagt", JVal.jnull),
      ("noise", JVal.jnull),
      ("solver", JVal.jnum (output.mag_solver : ℚ))])

/-- Primitive operations logged by the fusion-engine model, used to state
the ordering of `ReadAndProcessSensors`. -/
inductive EngineOp where
  | readSensorsOp
  | runFusionOp
deriving DecidableEq, Repr

/-- Abstract state of the external fusion engine: the raw transducer
samples last read (of abstract type α), the fused query surface, and the
trace of primitive operations performed. -/
structure FusionEngine (α : Type) where
  raw : α
  fused : SensorFusion
  ops : List EngineOp

/-- The external `SensorFusion::ReadSensors` at its interface boundary:
reads the raw transducers (the environment supplies the samples `env`). -/
def SensorFusionReadSensors {α : Type} (env : α) (e : FusionEngine α) :
    FusionEngine α :=
  { e with raw := env, ops := e.ops ++ [EngineOp.readSensorsOp] }

/-- The external `SensorFusion::RunFusion` at its interface boundary:
recomputes the fused query surface from the raw samples using the opaque
fusion algorithm `fuse`. -/
def SensorFusionRunFusion {α : Type} (fuse : α → SensorFusion)
    (e : FusionEngine α) : FusionEngine α :=
  { e with fused := fuse e.raw, ops := e.ops ++ [EngineOp.runFusionOp] }

/-- `OrientationSensor::ReadAndProcessSensors` from `orientation_sensor.cpp`
(lines 65-69): calls `sensor_interface_->ReadSensors()` then
`sensor_interface_->RunFusion()`.  The source returns `void`; the
state-passing embedding returns only the updated engine state. -/
def OrientationSensor.ReadAndProcessSensors {α : Type}
    (fuse : α → SensorFusion) (env : α) (e : FusionEngine α) :
    FusionEngine α :=
  SensorFusionRunFusion fuse (SensorFusionReadSensors env e)

/-- A concrete fusion-query state whose 17 numeric queries return pairwise
distinct nonzero values, used as the explicit input of counterexamples. -/
def sfDistinct : SensorFusion :=
  { IsDataValid := true
    GetHeadingRadians := 1
    GetRollRadians := 2
    GetPitchRadians := 3
    GetAccelXMPerSS := 4
    GetAccelYMPerSS := 5
    GetAccelZMPerSS := 6
    GetTurnRateRadPerS := 7
    GetPitchRateRadPerS := 8
    GetRollRateRadPerS := 9
    GetTemperatureK := 10
    GetMagneticFitError := 11
    GetMagneticFitErrorTrial := 12
    GetMagneticCalSolver := 13
    GetMagneticInclinationRad := 14
    GetMagneticBMag := 15
    GetMagneticBMagTrial := 16
    GetMagneticNoiseCovariance := 17 }

/-- A concrete invalid `MagCal` record with distinct nonzero fields, used
as the explicit input of counterexamples. -/
def mInvalid : MagCal :=
  { is_data_valid := false
    magnetic_inclination := 1
    cal_fit_error := 2
    cal_fit_error_trial := 3
    mag_field_magnitude := 4
    mag_field_magnitude_trial := 5
    mag_noise_covariance := 6
    mag_solver := 7 }

/-- A concrete `Attitude` record used in witnesses and counterexamples. -/
def aSample : Attitude :=
  { is_data_valid := true, yaw := 1, pitch := 2, roll := 3 }

/-- Claim C1, counterexample: publishing the concrete invalid record
`mInvalid` (validity false, `cal_fit_error_trial = 3`) serializes the
`ferrt` field as the JSON null marker, not as the numeric value 3 that the
claim requires for fit-error-trial. -/
theorem magcal_ferrt_serialized_null_counterexample :
    mInvalid.is_data_valid = false ∧
    mInvalid.cal_fit_error_trial = 3 ∧
    List.lookup "ferrt" (SKOutputMagCal.as_signalk "nav.magcal" mInvalid).2 =
      some JVal.jnull ∧
    JVal.jnull ≠ JVal.jnum 3 := by
  decide

/-- Claim C1, amended: when a `MagCal` record is published while validity
is false, the serialized message replaces the freshness-tied fields
(magnetic inclination, fit-error-trial, trial field magnitude, noise
covariance) with the null marker, while the stored-calibration fields
(fit-error-current, current field magnitude, solver order) serialize as
their numeric values; when validity is true, all fields serialize
numerically. -/
theorem magcal_serialize_field_partition (p : String) (m : MagCal) :
    List.lookup "incl" (SKOutputMagCal.as_signalk p m).2 =
      some (if m.is_data_valid then JVal.jnum m.magnetic_inclination
            else JVal.jnull) ∧
    List.lookup "ferr" (SKOutputMagCal.as_signalk p m).2 =
      some (JVal.jnum m.cal_fit_error) ∧
    List.lookup "ferrt" (SKOutputMagCal.as_signalk p m).2 =
      some (if m.is_data_valid then JVal.jnum m.cal_fit_error_trial
            else JVal.jnull) ∧
    List.lookup "bmag" (SKOutputMagCal.as_signalk p m).2 =
      some (JVal.jnum m.mag_field_magnitude) ∧
    List.lookup "bmagt" (SKOutputMagCal.as_signalk p m).2 =
      some (if m.is_data_valid then JVal.jnum m.mag_field_magnitude_trial
            else JVal.jnull) ∧
    List.lookup "noise" (SKOutputMagCal.as_signalk p m).2 =
      some (if m.is_data_valid then JVal.jnum m.mag_noise_covariance
            else JVal.jnull) ∧
    List.lookup "solver" (SKOutputMagCal.as_signalk p m).2 =
      some (JVal.jnum (m.mag_solver : ℚ)) := by
  cases h : m.is_data_valid <;>
    simp [SKOutputMagCal.as_signalk, h, List.lookup]

/-- Claim C2, counterexample: with the concrete store `sfDistinct`, whose
17 query values are pairwise distinct and all nonzero, the scalar reader
polled with `kYaw` (and with `kAttitude`) returns 0, which is not the
value of any Parameter Store query — so the claim fails for these two
enumerators. -/
theorem reportvalue_kyaw_kattitude_counterexample :
    (OrientationValues.ReportValue sfDistinct
      { value_type_ := .kYaw, save_mag_cal_ := 0, throttlePrint_ := 0 }).1
      = 0 ∧
    (OrientationValues.ReportValue sfDistinct
      { value_type_ := .kAttitude, save_mag_cal_ := 0,
        throttlePrint_ := 0 }).1 = 0 ∧
    sfDistinct.GetHeadingRadians ≠ 0 ∧
    sfDistinct.GetRollRadians ≠ 0 ∧
    sfDistinct.GetPitchRadians ≠ 0 ∧
    sfDistinct.GetAccelXMPerSS ≠ 0 ∧
    sfDistinct.GetAccelYMPerSS ≠ 0 ∧
    sfDistinct.GetAccelZMPerSS ≠ 0 ∧
    sfDistinct.GetTurnRateRadPerS ≠ 0 ∧
    sfDistinct.GetPitchRateRadPerS ≠ 0 ∧
    sfDistinct.GetRollRateRadPerS ≠ 0 ∧
    sfDistinct.GetTemperatureK ≠ 0 ∧
    sfDistinct.GetMagneticFitError ≠ 0 ∧
    sfDistinct.GetMagneticFitErrorTrial ≠ 0 ∧
    (sfDistinct.GetMagneticCalSolver : ℚ) ≠ 0 ∧
    sfDistinct.GetMagneticInclinationRad ≠ 0 ∧
    sfDistinct.GetMagneticBMag ≠ 0 ∧
    sfDistinct.GetMagneticBMagTrial ≠ 0 ∧
    sfDistinct.GetMagneticNoiseCovariance ≠ 0 := by
  decide

/-- Claim C2, amended: for every `OrientationValType` with a case label in
the dispatch switch, `ReportValue` returns exactly the corresponding
Parameter Store query value with no transformation; the two enumerators
without a case label, `kYaw` and `kAttitude`, fall to the default and
return 0.0. -/
theorem reportvalue_dispatch_exact (sf : SensorFusion) (c t : ℤ) :
    (OrientationValues.ReportValue sf
      { value_type_ := .kCompassHeading, save_mag_cal_ := c,
        throttlePrint_ := t }).1 = sf.GetHeadingRadians ∧
    (OrientationValues.ReportValue sf
      { value_type_ := .kYaw, save_mag_cal_ := c,
        throttlePrint_ := t }).1 = 0 ∧
    (OrientationValues.ReportValue sf
      { value_type_ := .kPitch, save_mag_cal_ := c,
        throttlePrint_ := t }).1 = sf.GetPitchRadians ∧
    (OrientationValues.ReportValue sf
      { value_type_ := .kRoll, save_mag_cal_ := c,
        throttlePrint_ := t }).1 = sf.GetRollRadians ∧
    (OrientationValues.ReportValue sf
      { value_type_ := .kAttitude, save_mag_cal_ := c,
        throttlePrint_ := t }).1 = 0 ∧
    (OrientationValues.ReportValue sf
      { value_type_ := .kAccelerationX, save_mag_cal_ := c,
        throttlePrint_ := t }).1 = sf.GetAccelXMPerSS ∧
    (OrientationValues.ReportValue sf
      { value_type_ := .kAccelerationY, save_mag_cal_ := c,
        throttlePrint_ := t }).1 = sf.GetAccelYMPerSS ∧
    (OrientationValues.ReportValue sf
      { value_type_ := .kAccelerationZ, save_mag_cal_ := c,
        throttlePrint_ := t }).1 = sf.GetAccelZMPerSS ∧
    (OrientationValues.ReportValue sf
      { value_type_ := .kRateOfTurn, save_mag_cal_ := c,
        throttlePrint_ := t }).1 = sf.GetTurnRateRadPerS ∧
    (OrientationValues.ReportValue sf
      { value_type_ := .kRateOfPitch, save_mag_cal_ := c,
        throttlePrint_ := t }).1 = sf.GetPitchRateRadPerS ∧
    (OrientationValues.ReportValue sf
      { value_type_ := .kRateOfRoll, save_mag_cal_ := c,
        throttlePrint_ := t }).1 = sf.GetRollRateRadPerS ∧
    (OrientationValues.ReportValue sf
      { value_type_ := .kTemperature, save_mag_cal_ := c,
        throttlePrint_ := t }).1 = sf.GetTemperatureK ∧
    (OrientationValues.ReportValue sf
      { value_type_ := .kMagCalFitInUse, save_mag_cal_ := c,
        throttlePrint_ := t }).1 = sf.GetMagneticFitError ∧
    (OrientationValues.ReportValue sf
      { value_type_ := .kMagCalFitTrial, save_mag_cal_ := c,
        throttlePrint_ := t }).1 = sf.GetMagneticFitErrorTrial ∧
    (OrientationValues.ReportValue sf
      { value_type_ := .kMagCalAlgorithmSolver, save_mag_cal_ := c,
        throttlePrint_ := t }).1 = (sf.GetMagneticCalSolver : ℚ) ∧
    (OrientationValues.ReportValue sf
      { value_type_ := .kMagInclination, save_mag_cal_ := c,
        throttlePrint_ := t }).1 = sf.GetMagneticInclinationRad ∧
    (OrientationValues.ReportValue sf
      { value_type_ := .kMagFieldMagnitude, save_mag_cal_ := c,
        throttlePrint_ := t }).1 = sf.GetMagneticBMag ∧
    (OrientationValues.ReportValue sf
      { value_type_ := .kMagFieldMagnitudeTrial, save_mag_cal_ := c,
        throttlePrint_ := t }).1 = sf.GetMagneticBMagTrial ∧
    (OrientationValues.ReportValue sf
      { value_type_ := .kMagNoiseCovariance, save_mag_cal_ := c,
        throttlePrint_ := t }).1 = sf.GetMagneticNoiseCovariance := by
  and_intros <;> rfl

/-- Claim C3, counterexample: at a concrete store and record, polling the
MagCal composite reader issues no Parameter Store command (its `Update`
has no calibration-command drain at all), whereas the attitude composite
reader with a pending persist command issues the persist command — so the
MagCal reader does not drain a `CalibrationCommand` as the claim states. -/
theorem magcalvalues_no_drain_counterexample :
    (MagCalValues.Update sfDistinct mInvalid).2 = [] ∧
    (AttitudeValues.Update sfDistinct
      { attitude_ := aSample, save_mag_cal_ := 1 }).2 = ["SVMC"] ∧
    ([] : List String) ≠ ["SVMC"] := by
  decide

/-- Claim C3, amended: the attitude composite reader (`AttitudeValues`)
drains a pending `CalibrationCommand` exactly as the scalar reader does —
for every flag value the injected command tokens coincide and both reset
the flag to no-op — but the MagCal composite reader (`MagCalValues`)
carries no calibration command and never issues one. -/
theorem attitude_drains_like_scalar_magcal_never (sf : SensorFusion)
    (a : Attitude) (f : ℤ) (vt : OrientationValType) (t : ℤ) (m : MagCal) :
    (AttitudeValues.Update sf { attitude_ := a, save_mag_cal_ := f }).2 =
      (OrientationValues.ReportValue sf
        { value_type_ := vt, save_mag_cal_ := f, throttlePrint_ := t }).2.2 ∧
    (AttitudeValues.Update sf
      { attitude_ := a, save_mag_cal_ := f }).1.save_mag_cal_ = 0 ∧
    (OrientationValues.ReportValue sf
      { value_type_ := vt, save_mag_cal_ := f,
        throttlePrint_ := t }).2.1.save_mag_cal_ = 0 ∧
    (MagCalValues.Update sf m).2 = [] := by
  exact ⟨rfl, rfl, rfl, rfl⟩

/-- Claim C4 (confirmed): for each reader carrying a `CalibrationCommand`
(the attitude composite reader and the scalar reader), setting the flag to
persist (1) and polling twice issues "SVMC" exactly once — on the first
poll only — and the flag is reset to 0 by the first poll; likewise discard
(-1) issues "ERMC" exactly once. -/
theorem calibration_command_exactly_once (sf1 sf2 : SensorFusion)
    (a : Attitude) (vt : OrientationValType) (t : ℤ) :
    (AttitudeValues.Update sf1
      { attitude_ := a, save_mag_cal_ := 1 }).2 = ["SVMC"] ∧
    (AttitudeValues.Update sf1
      { attitude_ := a, save_mag_cal_ := 1 }).1.save_mag_cal_ = 0 ∧
    (AttitudeValues.Update sf2
      (AttitudeValues.Update sf1
        { attitude_ := a, save_mag_cal_ := 1 }).1).2 = [] ∧
    (AttitudeValues.Update sf1
      { attitude_ := a, save_mag_cal_ := -1 }).2 = ["ERMC"] ∧
    (AttitudeValues.Update sf2
      (AttitudeValues.Update sf1
        { attitude_ := a, save_mag_cal_ := -1 }).1).2 = [] ∧
    (OrientationValues.ReportValue sf1
      { value_type_ := vt, save_mag_cal_ := 1,
        throttlePrint_ := t }).2.2 = ["SVMC"] ∧
    (OrientationValues.ReportValue sf1
      { value_type_ := vt, save_mag_cal_ := 1,
        throttlePrint_ := t }).2.1.save_mag_cal_ = 0 ∧
    (OrientationValues.ReportValue sf2
      (OrientationValues.ReportValue sf1
        { value_type_ := vt, save_mag_cal_ := 1,
          throttlePrint_ := t }).2.1).2.2 = [] ∧
    (OrientationValues.ReportValue sf1
      { value_type_ := vt, save_mag_cal_ := -1,
        throttlePrint_ := t }).2.2 = ["ERMC"] ∧
    (OrientationValues.ReportValue sf2
      (OrientationValues.ReportValue sf1
        { value_type_ := vt, save_mag_cal_ := -1,
          throttlePrint_ := t }).2.1).2.2 = [] := by
  and_intros <;> rfl

/-- Claim C5 (confirmed): an `Attitude` record published while validity is
false serializes all three of yaw, pitch and roll as the explicit JSON
null marker (each key is present, so not omitted, and null is distinct
from the numeric value zero); while validity is true all three serialize
as the record's numeric values. -/
theorem attitude_serializes_null_when_invalid (p : String) (a : Attitude) :
    List.lookup "yaw" (SKOutputAttitude.as_signalk p a).2 =
      some (if a.is_data_valid then JVal.jnum a.yaw else JVal.jnull) ∧
    List.lookup "pitch" (SKOutputAttitude.as_signalk p a).2 =
      some (if a.is_data_valid then JVal.jnum a.pitch else JVal.jnull) ∧
    List.lookup "roll" (SKOutputAttitude.as_signalk p a).2 =
      some (if a.is_data_valid then JVal.jnum a.roll else JVal.jnull) ∧
    JVal.jnull ≠ JVal.jnum 0 := by
  cases h : a.is_data_valid <;>
    simp [SKOutputAttitude.as_signalk, h, List.lookup]

/-- Claim C6 (confirmed): a `ParameterId` not matched by any case label of
the dispatch switch makes `ReportValue` return the defined default 0.0;
the embedding is a total function, so no other error path exists. -/
theorem reportvalue_unmatched_returns_default (sf : SensorFusion)
    (c t : ℤ) (v : OrientationValType) (h : dispatchMatched v = false) :
    (OrientationValues.ReportValue sf
      { value_type_ := v, save_mag_cal_ := c, throttlePrint_ := t }).1
      = 0 := by
  cases v <;> simp_all [dispatchMatched, OrientationValues.ReportValue]

/-- Witness for C6: `kYaw` is unmatched and yields 0 at a concrete store. -/
theorem reportvalue_unmatched_returns_default_witness :
    dispatchMatched .kYaw = false ∧
    (OrientationValues.ReportValue sfDistinct
      { value_type_ := .kYaw, save_mag_cal_ := 0, throttlePrint_ := 0 }).1
      = 0 :=
  ⟨by decide,
   reportvalue_unmatched_returns_default sfDistinct 0 0 .kYaw (by decide)⟩

/-- Claim C7 (confirmed): each composite reader rebuilds its record fresh
on every poll — the resulting record is independent of whatever record the
previous poll left behind, and every field (the validity flag and all
numeric fields) equals the corresponding Parameter Store query of the
current poll. -/
theorem composite_records_rebuilt_fresh (sf : SensorFusion)
    (a1 a2 : Attitude) (f1 f2 : ℤ) (m1 m2 : MagCal) :
    (AttitudeValues.Update sf
      { attitude_ := a1, save_mag_cal_ := f1 }).1.attitude_ =
      (AttitudeValues.Update sf
        { attitude_ := a2, save_mag_cal_ := f2 }).1.attitude_ ∧
    (AttitudeValues.Update sf
      { attitude_ := a1, save_mag_cal_ := f1 }).1.attitude_ =
      { is_data_valid := sf.IsDataValid, yaw := sf.GetHeadingRadians,
        pitch := sf.GetPitchRadians, roll := sf.GetRollRadians } ∧
    (MagCalValues.Update sf m1).1 = (MagCalValues.Update sf m2).1 ∧
    (MagCalValues.Update sf m1).1 =
      { is_data_valid := sf.IsDataValid,
        magnetic_inclination := sf.GetMagneticInclinationRad,
        cal_fit_error := sf.GetMagneticFitError / 100,
        cal_fit_error_trial := sf.GetMagneticFitErrorTrial / 100,
        mag_field_magnitude := sf.GetMagneticBMag,
        mag_field_magnitude_trial := sf.GetMagneticBMagTrial,
        mag_noise_covariance := sf.GetMagneticNoiseCovariance,
        mag_solver := sf.GetMagneticCalSolver } := by
  exact ⟨rfl, rfl, rfl, rfl⟩

/-- Claim C8 (confirmed): one Sampling Driver tick performs exactly the
two engine operations read-sensors then run-fusion, in that order; its
effect is that the fused query surface afterwards reflects the newly read
raw samples (`fuse env`), and the whole tick is literally the composition
of the two primitives.  The source function returns `void`; the embedding
returns only the updated engine state. -/
theorem read_and_process_sensors_order {α : Type}
    (fuse : α → SensorFusion) (env : α) (e : FusionEngine α) :
    (OrientationSensor.ReadAndProcessSensors fuse env e).ops =
      e.ops ++ [EngineOp.readSensorsOp, EngineOp.runFusionOp] ∧
    (OrientationSensor.ReadAndProcessSensors fuse env e).fused = fuse env ∧
    OrientationSensor.ReadAndProcessSensors fuse env e =
      SensorFusionRunFusion fuse (SensorFusionReadSensors env e) := by
  refine ⟨?_, rfl, rfl⟩
  simp [OrientationSensor.ReadAndProcessSensors, SensorFusionRunFusion,
    SensorFusionReadSensors]

/-- Claim C9 (confirmed): for every store state, the MagCal composite
record's fit-error fields equal the corresponding Parameter Store queries
divided by 100, while the scalar reader returns the same queries unscaled
— hence composite field = scalar value / 100. -/
theorem magcal_fit_error_scaling (sf : SensorFusion) (m : MagCal)
    (c t : ℤ) :
    (MagCalValues.Update sf m).1.cal_fit_error =
      sf.GetMagneticFitError / 100 ∧
    (MagCalValues.Update sf m).1.cal_fit_error_trial =
      sf.GetMagneticFitErrorTrial / 100 ∧
    (OrientationValues.ReportValue sf
      { value_type_ := .kMagCalFitInUse, save_mag_cal_ := c,
        throttlePrint_ := t }).1 = sf.GetMagneticFitError ∧
    (OrientationValues.ReportValue sf
      { value_type_ := .kMagCalFitTrial, save_mag_cal_ := c,
        throttlePrint_ := t }).1 = sf.GetMagneticFitErrorTrial ∧
    (MagCalValues.Update sf m).1.cal_fit_error =
      (OrientationValues.ReportValue sf
        { value_type_ := .kMagCalFitInUse, save_mag_cal_ := c,
          throttlePrint_ := t }).1 / 100 ∧
    (MagCalValues.Update sf m).1.cal_fit_error_trial =
      (OrientationValues.ReportValue sf
        { value_type_ := .kMagCalFitTrial, save_mag_cal_ := c,
          throttlePrint_ := t }).1 / 100 := by
  and_intros <;> rfl

/-- Claim C10 (confirmed): after any single `AttitudeValues::Update` or
`OrientationValues::ReportValue` call the `save_mag_cal_` flag equals 0,
for every prior flag value; and a prior value that is neither 1 nor -1
(including values outside -1..1) issues no Parameter Store command while
still being cleared. -/
theorem save_mag_cal_always_cleared (sf : SensorFusion) (a : Attitude)
    (f : ℤ) (vt : OrientationValType) (t : ℤ) :
    (AttitudeValues.Update sf
      { attitude_ := a, save_mag_cal_ := f }).1.save_mag_cal_ = 0 ∧
    (OrientationValues.ReportValue sf
      { value_type_ := vt, save_mag_cal_ := f,
        throttlePrint_ := t }).2.1.save_mag_cal_ = 0 ∧
    (f ≠ 1 → f ≠ -1 →
      (AttitudeValues.Update sf
        { attitude_ := a, save_mag_cal_ := f }).2 = [] ∧
      (OrientationValues.ReportValue sf
        { value_type_ := vt, save_mag_cal_ := f,
          throttlePrint_ := t }).2.2 = []) := by
  refine ⟨rfl, rfl, fun h1 h2 => ?_⟩
  constructor <;>
    simp [AttitudeValues.Update, OrientationValues.ReportValue, h1, h2]

/-- Witness for C10: at the concrete flag value 5 (outside -1..1) the flag
is cleared and no command is issued, for both readers. -/
theorem save_mag_cal_always_cleared_witness :
    (AttitudeValues.Update sfDistinct
      { attitude_ := aSample, save_mag_cal_ := 5 }).1.save_mag_cal_ = 0 ∧
    (OrientationValues.ReportValue sfDistinct
      { value_type_ := .kRoll, save_mag_cal_ := 5,
        throttlePrint_ := 0 }).2.1.save_mag_cal_ = 0 ∧
    (AttitudeValues.Update sfDistinct
      { attitude_ := aSample, save_mag_cal_ := 5 }).2 = [] ∧
    (OrientationValues.ReportValue sfDistinct
      { value_type_ := .kRoll, save_mag_cal_ := 5,
        throttlePrint_ := 0 }).2.2 = [] := by
  have h := save_mag_cal_always_cleared sfDistinct aSample 5 .kRoll 0
  exact ⟨h.1, h.2.1,
    (h.2.2 (by decide) (by decide)).1, (h.2.2 (by decide) (by decide)).2⟩

end SignalKOrientation
